import Mathlib

/-!
Verification development for the yaml-pydantic-agent repository (a Flask
application in `app.py` that loads a CSV into SQLite, validates a YAML agent
configuration with pydantic, assembles a crewai pipeline once at startup, and
serves a `/process` route).  The definitions below are a shallow embedding of
the module-level code of `app.py`; the theorems settle the frozen claims about
that code.
-/

namespace FinanceCrew

/-! ## Character-level utilities (Python string semantics)

`str.strip()` in Python removes leading and trailing whitespace.  We model the
whitespace class (the characters for which `str.isspace` holds). -/

/-- The Python whitespace class (the characters stripped by `str.strip()`):
ASCII whitespace, the C1 separators, and the Unicode space characters. -/
def isPyWhitespace (c : Char) : Bool :=
  c.toNat ∈ [9, 10, 11, 12, 13, 28, 29, 30, 31, 32, 133, 160,
              5760, 8232, 8233, 8239, 8287, 12288]
  || (8192 ≤ c.toNat && c.toNat ≤ 8202)

/-- Remove trailing characters satisfying `p` (the right half of `strip`). -/
def dropTrail (p : Char → Bool) : List Char → List Char
  | [] => []
  | c :: t => if (dropTrail p t).isEmpty && p c then [] else c :: dropTrail p t

/-- Python `str.strip()`: drop leading whitespace, then trailing whitespace. -/
def strip (l : List Char) : List Char :=
  dropTrail isPyWhitespace (l.dropWhile isPyWhitespace)

/-- `pandas.Series.str.replace(a, b)` for one-character pattern and
one-character replacement (literal, every occurrence). -/
def replaceChar (a b : Char) (l : List Char) : List Char :=
  l.map (fun c => if c = a then b else c)

/-- `pandas.Series.str.replace(a, "")` for a one-character pattern:
removal of every occurrence. -/
def removeChar (a : Char) (l : List Char) : List Char :=
  l.filter (fun c => c != a)

/-- The column-name normalization of `app.py` line 70:
`.str.strip().str.replace(' ', '_').str.replace('(', '').str.replace(')', '').str.replace('/', '_')`. -/
def normalizeColumn (h : List Char) : List Char :=
  replaceChar '/' '_' (removeChar ')' (removeChar '(' (replaceChar ' ' '_' (strip h))))

/-! ## `textwrap.dedent` -/

/-- The indentation characters considered by `textwrap.dedent` (space, tab). -/
def isIndentChar (c : Char) : Bool := c = ' ' || c = '\t'

/-- Longest common first segment of two character lists (used for the common
indentation margin in `textwrap.dedent`). -/
def commonStart : List Char → List Char → List Char
  | a :: as, b :: bs => if a = b then a :: commonStart as bs else []
  | _, _ => []

/-- `textwrap.dedent`: lines made only of indentation characters are
normalized to empty, the common leading margin of the remaining lines is
computed, and that margin is removed from the front of every line. -/
def dedent (s : String) : String :=
  let lines := s.data.splitOn '\n'
  let lines := lines.map (fun l => if !l.isEmpty && l.all isIndentChar then [] else l)
  let indents := (lines.filter (fun l => !l.all isIndentChar)).map
    (fun l => l.takeWhile isIndentChar)
  let margin := match indents with
    | [] => ([] : List Char)
    | i :: is => is.foldl commonStart i
  let lines := lines.map (fun l => if margin.isPrefixOf l then l.drop margin.length else l)
  String.mk (List.intercalate ['\n'] lines)

/-! ## YAML values and pydantic validation

`yaml.safe_load` produces nested dictionaries, lists, strings, booleans and
numbers; `CrewConfig(**config_data)` validates them with pydantic.  Pydantic
(v2, default configuration) accepts a `str` field exactly when the value is a
string (empty strings included), supplies the declared defaults for absent
optional fields, and raises a validation error on a missing required field or
a wrongly-typed value. -/

/-- A YAML value as produced by `yaml.safe_load`. -/
inductive Yaml where
  | null
  | bool (b : Bool)
  | num (n : Int)
  | str (s : String)
  | list (items : List Yaml)
  | map (entries : List (String × Yaml))

/-- Lookup of a key in a YAML mapping (first binding wins). -/
def yamlLookup (entries : List (String × Yaml)) (k : String) : Option Yaml :=
  (entries.find? (fun p => p.1 == k)).map (fun p => p.2)

/-- The `AgentConfig` pydantic model of `app.py` lines 37-44. -/
structure AgentConfig where
  name : String
  role : String
  goal : String
  backstory : String
  tools : List String
  allow_delegation : Bool
  verbose : Bool
deriving DecidableEq

/-- The `CrewConfig` pydantic model of `app.py` lines 46-47. -/
structure CrewConfig where
  agents : List AgentConfig
deriving DecidableEq

/-- Pydantic validation of one required `str` field. -/
def requireStr (entries : List (String × Yaml)) (k : String) : Except String String :=
  match yamlLookup entries k with
  | some (.str s) => .ok s
  | some _ => .error (k ++ " must be a string")
  | none => .error ("field required: " ++ k)

/-- Pydantic validation of a `List[str]` value. -/
def readStrings : List Yaml → Except String (List String)
  | [] => .ok []
  | .str s :: rest =>
    match readStrings rest with
    | .ok ss => .ok (s :: ss)
    | .error e => .error e
  | _ :: _ => .error "tools entries must be strings"

/-- Pydantic validation of the optional `tools` field (default empty list). -/
def readTools (entries : List (String × Yaml)) : Except String (List String) :=
  match yamlLookup entries "tools" with
  | none => .ok []
  | some (.list items) => readStrings items
  | some _ => .error "tools must be a list"

/-- Pydantic validation of an optional boolean field with a default. -/
def readBoolField (entries : List (String × Yaml)) (k : String) (dflt : Bool) :
    Except String Bool :=
  match yamlLookup entries k with
  | none => .ok dflt
  | some (.bool b) => .ok b
  | some _ => .error (k ++ " must be a boolean")

/-- Pydantic validation of one agent entry against `AgentConfig`:
`name`, `role`, `goal`, `backstory` are required strings; `tools` defaults to
`[]`; `allow_delegation` defaults to `false`; `verbose` defaults to `true`. -/
def validateAgentConfig (y : Yaml) : Except String AgentConfig :=
  match y with
  | .map entries =>
    match requireStr entries "name" with
    | .error e => .error e
    | .ok name =>
      match requireStr entries "role" with
      | .error e => .error e
      | .ok role =>
        match requireStr entries "goal" with
        | .error e => .error e
        | .ok goal =>
          match requireStr entries "backstory" with
          | .error e => .error e
          | .ok backstory =>
            match readTools entries with
            | .error e => .error e
            | .ok tools =>
              match readBoolField entries "allow_delegation" false with
              | .error e => .error e
              | .ok allow_delegation =>
                match readBoolField entries "verbose" true with
                | .error e => .error e
                | .ok verbose =>
                  .ok { name, role, goal, backstory, tools, allow_delegation, verbose }
  | _ => .error "agent entry is not a mapping"

/-- Pydantic validation of the list of agent entries. -/
def validateAgents : List Yaml → Except String (List AgentConfig)
  | [] => .ok []
  | y :: rest =>
    match validateAgentConfig y with
    | .error e => .error e
    | .ok a =>
      match validateAgents rest with
      | .error e => .error e
      | .ok as => .ok (a :: as)

/-- Validation of the whole configuration against `CrewConfig`
(`CrewConfig(**config_data)` in `load_config`, `app.py` line 55). -/
def validateCrewConfig (y : Yaml) : Except String CrewConfig :=
  match y with
  | .map entries =>
    match yamlLookup entries "agents" with
    | some (.list items) =>
      match validateAgents items with
      | .ok agents => .ok { agents }
      | .error e => .error e
    | some _ => .error "agents must be a list"
    | none => .error "field required: agents"
  | _ => .error "config is not a mapping"

/-! ## Tools, agents, tasks, crew (`app.py` lines 83-160) -/

/-- The four tool adapters defined in `app.py` lines 83-103. -/
inductive ToolAdapter where
  | list_tables
  | tables_schema
  | execute_sql
  | check_sql
deriving DecidableEq

/-- The registered name of each tool adapter (the `@tool("...")` names). -/
def toolName : ToolAdapter → String
  | .list_tables => "list_tables"
  | .tables_schema => "tables_schema"
  | .execute_sql => "execute_sql"
  | .check_sql => "check_sql"

/-- The `tool_mapping` dictionary of `app.py` lines 106-111. -/
def tool_mapping : List (String × ToolAdapter) :=
  [("list_tables", .list_tables), ("tables_schema", .tables_schema),
   ("execute_sql", .execute_sql), ("check_sql", .check_sql)]

/-- `tool_mapping[n]` when present: dictionary lookup by tool name. -/
def lookupTool (n : String) : Option ToolAdapter :=
  (tool_mapping.find? (fun p => p.1 == n)).map (fun p => p.2)

/-- The list comprehension of `app.py` line 121:
`[tool_mapping[t] for t in agent_conf.tools if t in tool_mapping]`. -/
def resolveTools (declared : List String) : List ToolAdapter :=
  declared.filterMap lookupTool

/-- A constructed crewai `Agent` (`app.py` lines 122-130). -/
structure Agent where
  role : String
  goal : String
  backstory : String
  tools : List ToolAdapter
  allow_delegation : Bool
  verbose : Bool
deriving DecidableEq

/-- The `Agent(...)` construction of `app.py` lines 122-130: note that
`verbose` is passed the literal `True` there, not the descriptor flag. -/
def buildAgent (conf : AgentConfig) : Agent :=
  { role := conf.role
    goal := conf.goal
    backstory := dedent conf.backstory
    tools := resolveTools conf.tools
    allow_delegation := conf.allow_delegation
    verbose := true }

/-- Python dictionary insertion: overwrite in place if the key exists,
otherwise append. -/
def dictInsert (k : String) (v : Agent) : List (String × Agent) → List (String × Agent)
  | [] => [(k, v)]
  | (k', v') :: rest => if k' = k then (k, v) :: rest else (k', v') :: dictInsert k v rest

/-- Python dictionary lookup. -/
def dictGet (d : List (String × Agent)) (k : String) : Option Agent :=
  (d.find? (fun p => p.1 == k)).map (fun p => p.2)

/-- The agent-construction loop of `app.py` lines 119-130:
`agents[agent_conf.name] = Agent(...)` over the validated entries. -/
def buildAgents (entries : List AgentConfig) : List (String × Agent) :=
  entries.foldl (fun d e => dictInsert e.name (buildAgent e) d) []

/-- A crewai `Task`: description, expected output, assigned agent, and the
list of upstream tasks given as `context`. -/
inductive Task where
  | mk (description : String) (expected_output : String) (agent : Agent)
       (context : List Task)

/-- Description of a task. -/
def Task.description : Task → String
  | .mk d _ _ _ => d

/-- Expected output of a task. -/
def Task.expected_output : Task → String
  | .mk _ e _ _ => e

/-- Agent assigned to a task. -/
def Task.agent : Task → Agent
  | .mk _ _ a _ => a

/-- Context (upstream tasks) of a task. -/
def Task.context : Task → List Task
  | .mk _ _ _ c => c

/-- The crewai execution mode (`Process.sequential` is used in `app.py`). -/
inductive Process where
  | sequential
  | hierarchical
deriving DecidableEq

/-- A crewai `Crew` (`app.py` lines 152-157). -/
structure Crew where
  agents : List Agent
  tasks : List Task
  process : Process
  verbose : Bool

/-- Failure of crew assembly: the `KeyError` raised by `agents[name]` when a
conventionally-required agent name is absent. -/
inductive CrewError where
  | keyError (name : String)
deriving DecidableEq

/-- The body of `create_crew` after configuration validation
(`app.py` lines 118-157): build the agent dictionary, look up the three
conventionally-required agents (raising `KeyError` on absence, in source
order), construct the three tasks with their linear context chain, and
assemble the sequential crew. -/
def assembleCrew (cfg : CrewConfig) : Except CrewError Crew :=
  let agents := buildAgents cfg.agents
  match dictGet agents "sql_dev" with
  | none => .error (.keyError "sql_dev")
  | some sql_dev =>
    match dictGet agents "data_analyst" with
    | none => .error (.keyError "data_analyst")
    | some data_analyst =>
      match dictGet agents "report_writer" with
      | none => .error (.keyError "report_writer")
      | some report_writer =>
        let extract_data : Task := .mk
          "Extract the data required to answer the question: \x7bquery\x7d."
          "A list of data from the database that answers the question."
          sql_dev []
        let analyze_data : Task := .mk
          "Analyze the data provided and write a brief analysis for the question: \x7bquery\x7d."
          "A short, easy-to-understand text analyzing the provided data."
          data_analyst [extract_data]
        let write_report : Task := .mk
          (dedent "Write an executive summary of the report from the analysis. The report must be less than 50 words and presented in markdown.")
          "A markdown report summarizing the analysis."
          report_writer [analyze_data]
        .ok { agents := agents.map (fun p => p.2)
              tasks := [extract_data, analyze_data, write_report]
              process := .sequential
              verbose := true }

/-! ## Startup (`app.py` module level) -/

/-- Startup-fatal failures: the `ValueError` of line 34 and the
`exit()` calls of `load_config` and the database-setup block, plus the
uncaught `KeyError` from crew assembly (all of them kill the process before
`app.run`). -/
inductive StartupError where
  | missingApiKey
  | csvNotFound
  | dbSetupFailed
  | configNotFound
  | configInvalid (msg : String)
  | crewAssembly (e : CrewError)

/-- `load_config` (`app.py` lines 50-61): read the YAML file and validate it;
a missing file or a validation error is fatal (`exit()`). -/
def load_config (file : Option Yaml) : Except StartupError CrewConfig :=
  match file with
  | none => .error .configNotFound
  | some y =>
    match validateCrewConfig y with
    | .ok cfg => .ok cfg
    | .error e => .error (.configInvalid e)

/-- `create_crew` (`app.py` lines 114-157): `load_config()` followed by agent
and task construction. -/
def create_crew (file : Option Yaml) : Except StartupError Crew :=
  match load_config file with
  | .error e => .error e
  | .ok cfg =>
    match assembleCrew cfg with
    | .error e => .error (.crewAssembly e)
    | .ok c => .ok c

/-- The source CSV file: a header row and data rows. -/
structure Csv where
  headers : List (List Char)
  rows : List (List String)

/-- The `finance` table written by `df.to_sql` (`app.py` line 72):
normalized column names and the data rows. -/
structure Table where
  name : String
  columns : List (List Char)
  rows : List (List String)

/-- The environment the process starts in: the `GROQ_API_KEY` variable, the
`Financial Statements.csv` file (present or absent), whether the SQLite write
succeeds, and the `config.yaml` file (parsed, or absent). -/
structure Env where
  groq_api_key : Option String
  csvFile : Option Csv
  dbWriteOk : Bool
  configFile : Option Yaml

/-- The state of a successfully started server: the populated table and the
crew assembled once at startup. -/
structure ServerState where
  table : Table
  crew : Crew

/-- The one-time module-level setup of `app.py`, in source order: the
`GROQ_API_KEY` check (line 33 tests falsiness, so an empty value also fails),
the database setup (lines 68-79), and `crew = create_crew()` (line 160).
Any failure terminates the process before a route can be served. -/
def startup (env : Env) : Except StartupError ServerState :=
  match env.groq_api_key with
  | none => .error .missingApiKey
  | some key =>
    if key = "" then .error .missingApiKey
    else
      match env.csvFile with
      | none => .error .csvNotFound
      | some csv =>
        if !env.dbWriteOk then .error .dbSetupFailed
        else
          let table : Table :=
            { name := "finance", columns := csv.headers.map normalizeColumn, rows := csv.rows }
          match create_crew env.configFile with
          | .error e => .error e
          | .ok c => .ok { table := table, crew := c }

/-- Column names of the table stored by a (successful) startup. -/
def storedColumns : Except StartupError ServerState → List (List Char)
  | .ok s => s.table.columns
  | .error _ => []

/-- Tasks of an assembled crew (empty on assembly failure). -/
def crewTasks : Except CrewError Crew → List Task
  | .ok c => c.tasks
  | .error _ => []

/-- Execution mode of an assembled crew. -/
def crewProcess : Except CrewError Crew → Option Process
  | .ok c => some c.process
  | .error _ => none

/-- Whether an `Except` value is a success. -/
def isOkE {ε α : Type} : Except ε α → Bool
  | .ok _ => true
  | .error _ => false

/-! ## Web routes (`app.py` lines 164-181) -/

/-- A POST request: the submitted form fields. -/
structure Request where
  form : List (String × String)

/-- A response from the `/process` handler: either the `("...", 400)` pair of
line 174 or the rendered `result.html` of line 181. -/
inductive Response where
  | clientError (status : Nat) (body : String)
  | page (query : String) (result : String)
deriving DecidableEq

/-- A record of one `crew.kickoff(inputs=...)` invocation: which crew object
was used and which query string was bound as its input. -/
structure KickoffCall where
  crew : Crew
  query : String

/-- `request.form.get(key)`: first value for the key, or `None`. -/
def formGet (form : List (String × String)) (key : String) : Option String :=
  (form.find? (fun p => p.1 == key)).map (fun p => p.2)

/-- The `/process` handler (`app.py` lines 169-181).  `if not query` is a
falsiness test, so both an absent field (`None`) and an empty string take the
400 branch; otherwise `crew.kickoff` is invoked with the query and the result
page is rendered.  The returned `Option KickoffCall` records whether (and
with which crew and query) the pipeline was invoked. -/
def process (c : Crew) (kickoff : Crew → String → String) (req : Request) :
    Response × Option KickoffCall :=
  match formGet req.form "query" with
  | none => (.clientError 400 "Please provide a query.", none)
  | some query =>
    if query = "" then (.clientError 400 "Please provide a query.", none)
    else (.page query (kickoff c query), some { crew := c, query := query })

/-! ## Concrete sample values (used by the witness and counterexample theorems) -/

/-- A minimal agent entry with a given name. -/
def mkConf (n : String) : AgentConfig :=
  { name := n, role := "r", goal := "g", backstory := "b", tools := [],
    allow_delegation := false, verbose := true }

/-- A configuration with exactly the three conventionally-required agents. -/
def cfg_three : CrewConfig :=
  { agents := [mkConf "sql_dev", mkConf "data_analyst", mkConf "report_writer"] }

/-- A configuration with no agents at all. -/
def cfg_no_agents : CrewConfig := { agents := [] }

/-- A `sql_dev` entry declaring one unknown and one known tool name. -/
def sql_dev_tools_conf : AgentConfig :=
  { name := "sql_dev", role := "r", goal := "g", backstory := "b",
    tools := ["bogus_tool", "execute_sql"], allow_delegation := false, verbose := true }

/-- A complete configuration in which `sql_dev` declares an unknown tool. -/
def cfg_unknown_tool : CrewConfig :=
  { agents := [sql_dev_tools_conf, mkConf "data_analyst", mkConf "report_writer"] }

/-- A configuration whose only agent declares an unknown tool but none of the
three conventionally-required names is present. -/
def cfg_only_bogus : CrewConfig :=
  { agents := [{ name := "lonely", role := "r", goal := "g", backstory := "b",
                 tools := ["bogus_tool"], allow_delegation := false, verbose := true }] }

/-- A descriptor whose verbosity flag is `false`. -/
def conf_verbose_false : AgentConfig :=
  { name := "x", role := "r", goal := "g", backstory := "b", tools := [],
    allow_delegation := false, verbose := false }

/-- A YAML agent entry with the four required fields. -/
def agentYaml (n : String) : Yaml :=
  .map [("name", .str n), ("role", .str "r"), ("goal", .str "g"), ("backstory", .str "b")]

/-- A YAML configuration that validates and contains the three required agents. -/
def yaml_ok : Yaml :=
  .map [("agents", .list [agentYaml "sql_dev", agentYaml "data_analyst",
                          agentYaml "report_writer"])]

/-- A YAML agent entry whose four required fields are all present but empty. -/
def emptyFieldsEntry : Yaml :=
  .map [("name", .str ""), ("role", .str ""), ("goal", .str ""), ("backstory", .str "")]

/-- A CSV whose single header contains spaces, parentheses and a slash. -/
def csv0 : Csv := { headers := [" A (B)/C ".data], rows := [] }

/-- An environment in which startup succeeds. -/
def env_ok : Env :=
  { groq_api_key := some "gsk-demo", csvFile := some csv0, dbWriteOk := true,
    configFile := some yaml_ok }

/-- An environment with the credential variable unset. -/
def env_no_key : Env :=
  { groq_api_key := none, csvFile := some csv0, dbWriteOk := true,
    configFile := some yaml_ok }

/-- An environment with the CSV file absent. -/
def env_no_csv : Env :=
  { groq_api_key := some "k", csvFile := none, dbWriteOk := true,
    configFile := some yaml_ok }

/-- An environment with the configuration file absent. -/
def env_no_config : Env :=
  { groq_api_key := some "k", csvFile := some csv0, dbWriteOk := true,
    configFile := none }

/-- An environment whose configuration file does not validate. -/
def env_bad_config : Env :=
  { groq_api_key := some "k", csvFile := some csv0, dbWriteOk := true,
    configFile := some (.str "nope") }

/-- An arbitrary crew value for exercising the request handler. -/
def crew0 : Crew := { agents := [], tasks := [], process := .sequential, verbose := true }

/-- An arbitrary kickoff function for exercising the request handler. -/
def kick0 : Crew → String → String := fun _ _ => "ok"

/-- A POST request whose form has no `query` field. -/
def req_no_query : Request := { form := [("other", "x")] }

/-- A POST request whose `query` field is the empty string. -/
def req_empty_query : Request := { form := [("query", "")] }

/-- A header on which column normalization is not idempotent: the tab becomes
trailing only after the parenthesis is removed. -/
def badHeader : List Char := ['a', '\t', '(']

/-- Abbreviation: the `extract_data` task built for a given `sql_dev` agent. -/
def extractTaskOf (a1 : Agent) : Task :=
  .mk "Extract the data required to answer the question: \x7bquery\x7d."
      "A list of data from the database that answers the question."
      a1 []

/-- Abbreviation: the `analyze_data` task built for given agents. -/
def analyzeTaskOf (a1 a2 : Agent) : Task :=
  .mk "Analyze the data provided and write a brief analysis for the question: \x7bquery\x7d."
      "A short, easy-to-understand text analyzing the provided data."
      a2 [extractTaskOf a1]

/-- Abbreviation: the `write_report` task built for given agents. -/
def reportTaskOf (a1 a2 a3 : Agent) : Task :=
  .mk (dedent "Write an executive summary of the report from the analysis. The report must be less than 50 words and presented in markdown.")
      "A markdown report summarizing the analysis."
      a3 [analyzeTaskOf a1 a2]

/-! ## Helper lemmas: character-level operations -/

lemma dropWhile_dropWhile (p : Char → Bool) (l : List Char) :
    (l.dropWhile p).dropWhile p = l.dropWhile p := by
  induction l with
  | nil => rfl
  | cons c t ih =>
    cases h : p c with
    | false => simp [List.dropWhile_cons, h]
    | true => simp [List.dropWhile_cons, h, ih]

lemma mem_dropTrail {p : Char → Bool} {c : Char} {l : List Char}
    (h : c ∈ dropTrail p l) : c ∈ l := by
  induction l with
  | nil => simp [dropTrail] at h
  | cons a t ih =>
    simp only [dropTrail] at h
    by_cases hb : ((dropTrail p t).isEmpty && p a) = true
    · rw [if_pos hb] at h
      exact absurd h (List.not_mem_nil c)
    · rw [if_neg hb] at h
      rcases List.mem_cons.mp h with h | h
      · exact h ▸ List.mem_cons_self a t
      · exact List.mem_cons_of_mem a (ih h)

lemma dropTrail_eq_self {p : Char → Bool} {l : List Char}
    (h : ∀ c ∈ l, p c = false) : dropTrail p l = l := by
  induction l with
  | nil => rfl
  | cons a t ih =>
    have ht : dropTrail p t = t := ih (fun c hc => h c (List.mem_cons_of_mem a hc))
    have ha : p a = false := h a (List.mem_cons_self a t)
    simp [dropTrail, ht, ha]

lemma dropWhile_eq_self {p : Char → Bool} {l : List Char}
    (h : ∀ c ∈ l, p c = false) : l.dropWhile p = l := by
  cases l with
  | nil => rfl
  | cons a t => simp [List.dropWhile_cons, h a (List.mem_cons_self a t)]

lemma strip_eq_self {l : List Char} (h : ∀ c ∈ l, isPyWhitespace c = false) :
    strip l = l := by
  rw [strip, dropWhile_eq_self h, dropTrail_eq_self h]

lemma mem_strip {c : Char} {l : List Char} (h : c ∈ strip l) : c ∈ l := by
  have h1 := mem_dropTrail h
  exact (List.dropWhile_sublist (l := l) (p := isPyWhitespace)).subset h1

lemma mem_replaceChar {a b c : Char} {l : List Char} (h : c ∈ replaceChar a b l) :
    c = b ∨ (c ∈ l ∧ c ≠ a) := by
  simp only [replaceChar] at h
  rcases List.mem_map.mp h with ⟨d, hd, hdc⟩
  by_cases hda : d = a
  · left; rw [← hdc, if_pos hda]
  · right; rw [← hdc, if_neg hda]; exact ⟨hd, hda⟩

lemma replaceChar_eq_self {a b : Char} {l : List Char} (h : ∀ c ∈ l, c ≠ a) :
    replaceChar a b l = l := by
  induction l with
  | nil => rfl
  | cons d t ih =>
    have ht := ih (fun c hc => h c (List.mem_cons_of_mem d hc))
    simp only [replaceChar, List.map_cons] at ht ⊢
    rw [if_neg (h d (List.mem_cons_self d t)), ht]

lemma mem_removeChar {a c : Char} {l : List Char} (h : c ∈ removeChar a l) :
    c ∈ l ∧ c ≠ a := by
  simp only [removeChar] at h
  have hm := List.mem_filter.mp h
  refine ⟨hm.1, ?_⟩
  simpa using hm.2

lemma removeChar_eq_self {a : Char} {l : List Char} (h : ∀ c ∈ l, c ≠ a) :
    removeChar a l = l := by
  simp only [removeChar]
  rw [List.filter_eq_self]
  intro c hc
  simpa using h c hc

lemma normalizeColumn_chars {c : Char} {h : List Char} (hm : c ∈ normalizeColumn h) :
    c = '_' ∨ (c ∈ h ∧ c ≠ ' ' ∧ c ≠ '(' ∧ c ≠ ')' ∧ c ≠ '/') := by
  simp only [normalizeColumn] at hm
  rcases mem_replaceChar hm with hb | ⟨h3, hslash⟩
  · exact Or.inl hb
  · rcases mem_removeChar h3 with ⟨h2, hrp⟩
    rcases mem_removeChar h2 with ⟨h1, hlp⟩
    rcases mem_replaceChar h1 with hb | ⟨h0, hsp⟩
    · exact Or.inl hb
    · exact Or.inr ⟨mem_strip h0, hsp, hlp, hrp, hslash⟩

lemma dropTrail_dropTrail (p : Char → Bool) (l : List Char) :
    dropTrail p (dropTrail p l) = dropTrail p l := by
  induction l with
  | nil => rfl
  | cons c t ih =>
    cases hb : (dropTrail p t).isEmpty && p c with
    | true => simp [dropTrail, hb]
    | false => simp [dropTrail, hb, ih]

lemma dropWhile_dropTrail {p : Char → Bool} {l : List Char}
    (h : l.dropWhile p = l) : (dropTrail p l).dropWhile p = dropTrail p l := by
  cases l with
  | nil => rfl
  | cons c t =>
    have hc : p c = false := by
      cases hpc : p c
      · rfl
      · exfalso
        rw [List.dropWhile_cons, if_pos hpc] at h
        have hlen := congrArg List.length h
        have hle := (List.dropWhile_sublist (p := p) (l := t)).length_le
        simp only [List.length_cons] at hlen
        omega
    simp only [dropTrail, hc, Bool.and_false, Bool.false_eq_true, if_false]
    rw [List.dropWhile_cons, if_neg (by simp [hc])]

lemma strip_strip (l : List Char) : strip (strip l) = strip l := by
  unfold strip
  rw [dropWhile_dropTrail (dropWhile_dropWhile _ l), dropTrail_dropTrail]

lemma normalizeColumn_eq_self {X : List Char}
    (hws : ∀ c ∈ X, isPyWhitespace c = false)
    (hsp : ∀ c ∈ X, c ≠ ' ') (hlp : ∀ c ∈ X, c ≠ '(')
    (hrp : ∀ c ∈ X, c ≠ ')') (hsl : ∀ c ∈ X, c ≠ '/') :
    normalizeColumn X = X := by
  unfold normalizeColumn
  rw [strip_eq_self hws, replaceChar_eq_self hsp, removeChar_eq_self hlp,
      removeChar_eq_self hrp, replaceChar_eq_self hsl]

lemma normalizeColumn_no_ws {h : List Char}
    (hws : ∀ c ∈ h, isPyWhitespace c = true → c = ' ')
    {c : Char} (hc : c ∈ normalizeColumn h) : isPyWhitespace c = false := by
  rcases normalizeColumn_chars hc with rfl | ⟨hmem, hsp, _, _, _⟩
  · decide
  · cases hpw : isPyWhitespace c
    · rfl
    · exact absurd (hws c hmem hpw) hsp

lemma normalizeColumn_idem {h : List Char}
    (hws : ∀ c ∈ h, isPyWhitespace c = true → c = ' ') :
    normalizeColumn (normalizeColumn h) = normalizeColumn h := by
  have hnws : ∀ c ∈ normalizeColumn h, isPyWhitespace c = false :=
    fun c hc => normalizeColumn_no_ws hws hc
  refine normalizeColumn_eq_self hnws ?_ ?_ ?_ ?_
  · intro c hc heq
    exact absurd (heq ▸ hnws c hc) (by decide)
  · intro c hc
    rcases normalizeColumn_chars hc with rfl | ⟨_, _, h1, _, _⟩
    · decide
    · exact h1
  · intro c hc
    rcases normalizeColumn_chars hc with rfl | ⟨_, _, _, h2, _⟩
    · decide
    · exact h2
  · intro c hc
    rcases normalizeColumn_chars hc with rfl | ⟨_, _, _, _, h3⟩
    · decide
    · exact h3

/-! ## Helper lemmas: the agent dictionary -/

lemma dictGet_cons (a : String) (b : Agent) (d : List (String × Agent)) (k : String) :
    dictGet ((a, b) :: d) k = if a = k then some b else dictGet d k := by
  by_cases h : a = k
  · subst h
    simp [dictGet, List.find?]
  · have hb : (a == k) = false := beq_eq_false_iff_ne.mpr h
    simp [dictGet, List.find?, hb, h]

lemma dictGet_dictInsert (k k' : String) (v : Agent) (d : List (String × Agent)) :
    dictGet (dictInsert k v d) k' = if k' = k then some v else dictGet d k' := by
  induction d with
  | nil =>
    rw [show dictInsert k v [] = [(k, v)] from rfl, dictGet_cons]
    by_cases h : k' = k
    · rw [if_pos h.symm, if_pos h]
    · rw [if_neg (fun hh => h hh.symm), if_neg h]
  | cons p rest ih =>
    rcases p with ⟨a, b⟩
    simp only [dictInsert]
    by_cases hak : a = k
    · rw [if_pos hak, dictGet_cons, dictGet_cons]
      by_cases h : k' = k
      · rw [if_pos h.symm, if_pos h]
      · rw [if_neg (fun hh => h hh.symm), if_neg h,
            if_neg (fun hh => h ((hak ▸ hh : (k : String) = k')).symm)]
    · rw [if_neg hak, dictGet_cons, dictGet_cons, ih]
      by_cases h : k' = k
      · rw [if_pos h, if_pos h, if_neg (fun hh => hak (hh.trans h))]
      · rw [if_neg h, if_neg h]

lemma buildAgents_get_isSome (es : List AgentConfig) (k : String) :
    (dictGet (buildAgents es) k).isSome = true ↔ k ∈ es.map AgentConfig.name := by
  suffices h : ∀ d, (dictGet (es.foldl (fun d e => dictInsert e.name (buildAgent e) d) d) k).isSome
      = true ↔ k ∈ es.map AgentConfig.name ∨ (dictGet d k).isSome = true by
    have h0 := h []
    rw [show (dictGet [] k).isSome = false from rfl] at h0
    simpa [buildAgents] using h0
  intro d
  induction es generalizing d with
  | nil => simp
  | cons e rest ih =>
    simp only [List.foldl_cons, List.map_cons, List.mem_cons]
    rw [ih, dictGet_dictInsert]
    by_cases h : k = e.name
    · simp [h]
    · simp [h, or_assoc]

/-! ## Helper lemmas: tool resolution -/

lemma lookupTool_name {n : String} {t : ToolAdapter} (h : lookupTool n = some t) :
    toolName t = n := by
  simp only [lookupTool] at h
  rcases hf : List.find? (fun p => p.1 == n) tool_mapping with _ | p
  · rw [hf] at h
    simp at h
  · rw [hf] at h
    simp only [Option.map_some'] at h
    have hpn : p.1 = n := by simpa using List.find?_some hf
    have hm := List.mem_of_find?_eq_some hf
    have hpt : p.2 = t := Option.some.inj h
    rw [← hpt, ← hpn]
    fin_cases hm <;> rfl

lemma lookupTool_isSome (n : String) :
    (lookupTool n).isSome = true ↔ n ∈ tool_mapping.map Prod.fst := by
  constructor
  · intro h
    rcases hf : List.find? (fun p => p.1 == n) tool_mapping with _ | p
    · simp [lookupTool, hf] at h
    · have hpn : p.1 = n := by simpa using List.find?_some hf
      have hm := List.mem_of_find?_eq_some hf
      rw [← hpn]
      exact List.mem_map_of_mem Prod.fst hm
  · intro h
    simp only [tool_mapping, List.map_cons, List.map_nil, List.mem_cons,
               List.not_mem_nil, or_false] at h
    rcases h with rfl | rfl | rfl | rfl <;> rfl

lemma resolveTools_names (ts : List String) :
    (resolveTools ts).map toolName = ts.filter (fun n => (lookupTool n).isSome) := by
  induction ts with
  | nil => rfl
  | cons n rest ih =>
    simp only [resolveTools, List.filterMap_cons] at ih ⊢
    cases hl : lookupTool n with
    | none => simp [List.filter_cons, hl, ih]
    | some t => simp [List.filter_cons, hl, ih, lookupTool_name hl]

/-! ## Helper lemmas: crew assembly -/

lemma assembleCrew_of_mem {cfg : CrewConfig}
    (h1 : "sql_dev" ∈ cfg.agents.map AgentConfig.name)
    (h2 : "data_analyst" ∈ cfg.agents.map AgentConfig.name)
    (h3 : "report_writer" ∈ cfg.agents.map AgentConfig.name) :
    ∃ a1 a2 a3,
      assembleCrew cfg = .ok
        { agents := (buildAgents cfg.agents).map (fun p => p.2)
          tasks := [extractTaskOf a1, analyzeTaskOf a1 a2, reportTaskOf a1 a2 a3]
          process := .sequential
          verbose := true } := by
  rcases Option.isSome_iff_exists.mp ((buildAgents_get_isSome cfg.agents "sql_dev").mpr h1)
    with ⟨a1, hs⟩
  rcases Option.isSome_iff_exists.mp ((buildAgents_get_isSome cfg.agents "data_analyst").mpr h2)
    with ⟨a2, hd⟩
  rcases Option.isSome_iff_exists.mp ((buildAgents_get_isSome cfg.agents "report_writer").mpr h3)
    with ⟨a3, hw⟩
  refine ⟨a1, a2, a3, ?_⟩
  simp only [assembleCrew, hs, hd, hw]
  rfl

lemma assembleCrew_error_of_missing {cfg : CrewConfig}
    (h : "sql_dev" ∉ cfg.agents.map AgentConfig.name ∨
         "data_analyst" ∉ cfg.agents.map AgentConfig.name ∨
         "report_writer" ∉ cfg.agents.map AgentConfig.name) :
    ∃ n, assembleCrew cfg = .error (.keyError n) ∧
      (n = "sql_dev" ∨ n = "data_analyst" ∨ n = "report_writer") := by
  rcases hs : dictGet (buildAgents cfg.agents) "sql_dev" with _ | a1
  · exact ⟨"sql_dev", by simp [assembleCrew, hs], Or.inl rfl⟩
  rcases hd : dictGet (buildAgents cfg.agents) "data_analyst" with _ | a2
  · exact ⟨"data_analyst", by simp [assembleCrew, hs, hd], Or.inr (Or.inl rfl)⟩
  rcases hw : dictGet (buildAgents cfg.agents) "report_writer" with _ | a3
  · exact ⟨"report_writer", by simp [assembleCrew, hs, hd, hw], Or.inr (Or.inr rfl)⟩
  exfalso
  rcases h with h | h | h
  · exact h ((buildAgents_get_isSome _ _).mp (by simp [hs]))
  · exact h ((buildAgents_get_isSome _ _).mp (by simp [hd]))
  · exact h ((buildAgents_get_isSome _ _).mp (by simp [hw]))

/-! ## Helper lemmas: configuration validation -/

lemma requireStr_isSome {entries : List (String × Yaml)} {k : String}
    (h : isOkE (requireStr entries k) = true) :
    (yamlLookup entries k).isSome = true := by
  rcases hl : yamlLookup entries k with _ | y
  · simp [requireStr, hl, isOkE] at h
  · rfl

lemma validateAgentConfig_fields {entries : List (String × Yaml)}
    (h : isOkE (validateAgentConfig (.map entries)) = true) :
    (yamlLookup entries "name").isSome = true ∧
    (yamlLookup entries "role").isSome = true ∧
    (yamlLookup entries "goal").isSome = true ∧
    (yamlLookup entries "backstory").isSome = true := by
  rcases h1 : requireStr entries "name" with e | s1
  · simp [validateAgentConfig, h1, isOkE] at h
  rcases h2 : requireStr entries "role" with e | s2
  · simp [validateAgentConfig, h1, h2, isOkE] at h
  rcases h3 : requireStr entries "goal" with e | s3
  · simp [validateAgentConfig, h1, h2, h3, isOkE] at h
  rcases h4 : requireStr entries "backstory" with e | s4
  · simp [validateAgentConfig, h1, h2, h3, h4, isOkE] at h
  exact ⟨requireStr_isSome (by simp [h1, isOkE]), requireStr_isSome (by simp [h2, isOkE]),
         requireStr_isSome (by simp [h3, isOkE]), requireStr_isSome (by simp [h4, isOkE])⟩

lemma validateAgents_mem_isOk {items : List Yaml} {y : Yaml} (hy : y ∈ items)
    (h : isOkE (validateAgents items) = true) :
    isOkE (validateAgentConfig y) = true := by
  induction items with
  | nil => exact absurd hy (List.not_mem_nil y)
  | cons z rest ih =>
    rcases hz : validateAgentConfig z with e | a
    · simp [validateAgents, hz, isOkE] at h
    · rcases hr : validateAgents rest with e | as
      · simp [validateAgents, hz, hr, isOkE] at h
      · rcases List.mem_cons.mp hy with rfl | hy'
        · simp [hz, isOkE]
        · exact ih hy' (by simp [hr, isOkE])

lemma validateCrewConfig_bad_entry {yentries : List (String × Yaml)} {items : List Yaml}
    {y : Yaml} (ha : yamlLookup yentries "agents" = some (.list items)) (hy : y ∈ items)
    (hbad : isOkE (validateAgentConfig y) = false) :
    isOkE (validateCrewConfig (.map yentries)) = false := by
  rcases hv : validateAgents items with e | as
  · simp [validateCrewConfig, ha, hv, isOkE]
  · exfalso
    have hok := validateAgents_mem_isOk hy (by simp [hv, isOkE])
    rw [hbad] at hok
    exact Bool.false_ne_true hok

/-! ## Helper lemmas: startup and request handling -/

lemma startup_ok_inv {env : Env} {s : ServerState} (h : startup env = .ok s) :
    ∃ k csv y cfg c,
      env.groq_api_key = some k ∧ k ≠ "" ∧
      env.csvFile = some csv ∧ env.dbWriteOk = true ∧
      env.configFile = some y ∧ validateCrewConfig y = .ok cfg ∧
      assembleCrew cfg = .ok c ∧
      s = { table := { name := "finance", columns := csv.headers.map normalizeColumn,
                       rows := csv.rows }, crew := c } := by
  rcases hk : env.groq_api_key with _ | k
  · simp [startup, hk] at h
  by_cases hke : k = ""
  · simp [startup, hk, hke] at h
  rcases hc : env.csvFile with _ | csv
  · simp [startup, hk, hke, hc] at h
  cases hdb : env.dbWriteOk with
  | false => simp [startup, hk, hke, hc, hdb] at h
  | true =>
    rcases hcf : env.configFile with _ | y
    · simp [startup, hk, hke, hc, hdb, hcf, create_crew, load_config] at h
    rcases hv : validateCrewConfig y with e | cfg
    · simp [startup, hk, hke, hc, hdb, hcf, create_crew, load_config, hv] at h
    rcases ha : assembleCrew cfg with e | c
    · simp [startup, hk, hke, hc, hdb, hcf, create_crew, load_config, hv, ha] at h
    · refine ⟨k, csv, y, cfg, c, rfl, hke, rfl, rfl, rfl, hv, ha, ?_⟩
      simp only [startup, hk, hke, hc, hdb, create_crew, load_config, hcf, hv, ha,
                 Bool.not_true, Bool.false_eq_true, if_false, if_neg hke] at h
      exact (Except.ok.inj h).symm

lemma process_call_crew {c : Crew} {kickoff : Crew → String → String} {req : Request}
    {call : KickoffCall} (h : (process c kickoff req).2 = some call) :
    call.crew = c := by
  rcases hq : formGet req.form "query" with _ | q
  · simp [process, hq] at h
  · by_cases he : q = ""
    · simp [process, hq, he] at h
    · simp only [process, hq, if_neg he] at h
      have hcall := Option.some.inj h
      rw [← hcall]

lemma normalizeColumn_no_bad (h : List Char) :
    ' ' ∉ normalizeColumn h ∧ '(' ∉ normalizeColumn h ∧
    ')' ∉ normalizeColumn h ∧ '/' ∉ normalizeColumn h := by
  refine ⟨?_, ?_, ?_, ?_⟩ <;> intro hm
  · rcases normalizeColumn_chars hm with hb | ⟨_, h1, _, _, _⟩
    · exact absurd hb (by decide)
    · exact h1 rfl
  · rcases normalizeColumn_chars hm with hb | ⟨_, _, h2, _, _⟩
    · exact absurd hb (by decide)
    · exact h2 rfl
  · rcases normalizeColumn_chars hm with hb | ⟨_, _, _, h3, _⟩
    · exact absurd hb (by decide)
    · exact h3 rfl
  · rcases normalizeColumn_chars hm with hb | ⟨_, _, _, _, h4⟩
    · exact absurd hb (by decide)
    · exact h4 rfl

/-! ## The claims -/

/-- C1: a POST to `/process` whose form data contains no `query` field gets the
400 response with the plain-text message, and the pipeline (`crew.kickoff`) is
not invoked. -/
theorem claim_C1_missing_query_rejected (c : Crew) (kickoff : Crew → String → String)
    (req : Request) (h : formGet req.form "query" = none) :
    process c kickoff req = (Response.clientError 400 "Please provide a query.", none) := by
  simp [process, h]

/-- C1 witness: a concrete request without a `query` field. -/
theorem claim_C1_witness :
    process crew0 kick0 req_no_query
      = (Response.clientError 400 "Please provide a query.", none) :=
  claim_C1_missing_query_rejected crew0 kick0 req_no_query (by decide)

/-- C10: a POST to `/process` whose `query` field is present but empty also gets
the 400 response and does not invoke the pipeline, because the guard of line 173
tests falsiness of the value, which does not distinguish empty from absent. -/
theorem claim_C10_empty_query_rejected (c : Crew) (kickoff : Crew → String → String)
    (req : Request) (h : formGet req.form "query" = some "") :
    process c kickoff req = (Response.clientError 400 "Please provide a query.", none) := by
  simp [process, h]

/-- C10 witness: a concrete request whose `query` field is the empty string. -/
theorem claim_C10_witness :
    process crew0 kick0 req_empty_query
      = (Response.clientError 400 "Please provide a query.", none) :=
  claim_C10_empty_query_rejected crew0 kick0 req_empty_query (by decide)

/-- C3 counterexample: the claim says the constructed agent verbosity equals
the descriptor verbosity flag; the descriptor `conf_verbose_false` has the
flag `false`, yet the constructed agent has `verbose = true`, because line 129
of `app.py` passes the literal `True` instead of `agent_conf.verbose`. -/
theorem claim_C3_counterexample :
    (buildAgent conf_verbose_false).verbose ≠ conf_verbose_false.verbose := by decide

/-- C3 amended: the assembler copies the delegation flag from the descriptor,
but the agent verbosity is always `true` regardless of the descriptor flag. -/
theorem claim_C3_amended (conf : AgentConfig) :
    (buildAgent conf).allow_delegation = conf.allow_delegation ∧
    (buildAgent conf).verbose = true :=
  ⟨rfl, rfl⟩

/-- C4: every column name stored in the relational store by a successful
startup contains no space, no parenthesis and no slash; and because leading
and trailing whitespace is stripped first, normalizing an already-stripped
header gives the same column name. -/
theorem claim_C4_normalized_columns :
    (∀ env col, col ∈ storedColumns (startup env) →
       ' ' ∉ col ∧ '(' ∉ col ∧ ')' ∉ col ∧ '/' ∉ col) ∧
    (∀ h : List Char, normalizeColumn (strip h) = normalizeColumn h) := by
  constructor
  · intro env col hcol
    rcases hs : startup env with e | s
    · rw [hs] at hcol
      exact absurd hcol (List.not_mem_nil col)
    · rw [hs] at hcol
      rcases startup_ok_inv hs with ⟨k, csv, y, cfg, c, _, _, _, _, _, _, _, hsv⟩
      subst hsv
      simp only [storedColumns] at hcol
      rcases List.mem_map.mp hcol with ⟨h0, _, rfl⟩
      exact normalizeColumn_no_bad h0
  · intro h
    unfold normalizeColumn
    rw [strip_strip]

/-- C4 witness: the startup environment `env_ok` stores the normalized column
`A_B_C` for the header ` A (B)/C `, and that column has none of the replaced
characters. -/
theorem claim_C4_witness :
    (' ' ∉ "A_B_C".data ∧ '(' ∉ "A_B_C".data ∧ ')' ∉ "A_B_C".data ∧ '/' ∉ "A_B_C".data) ∧
    normalizeColumn (strip " A (B)/C ".data) = normalizeColumn " A (B)/C ".data :=
  ⟨claim_C4_normalized_columns.1 env_ok "A_B_C".data (by decide),
   claim_C4_normalized_columns.2 " A (B)/C ".data⟩

/-- C5 counterexample: normalization is not idempotent on every header.  On
`badHeader` (a tab followed by a parenthesis) the first pass removes the
parenthesis and leaves a trailing tab, which only the second pass strips. -/
theorem claim_C5_counterexample :
    normalizeColumn (normalizeColumn badHeader) ≠ normalizeColumn badHeader := by decide

/-- C5 amended: normalization is idempotent for every header whose whitespace
characters are all plain spaces (in particular any header free of tabs,
newlines and other exotic whitespace); it is a pure function, hence
deterministic, so re-running the load on the same file yields the same
column names. -/
theorem claim_C5_idempotent_on_space_only (h : List Char)
    (hws : ∀ c ∈ h, isPyWhitespace c = true → c = ' ') :
    normalizeColumn (normalizeColumn h) = normalizeColumn h :=
  normalizeColumn_idem hws

/-- C5 witness: a realistic header containing spaces, parentheses and a slash
but no other whitespace. -/
theorem claim_C5_witness :
    normalizeColumn (normalizeColumn "Net Income (Loss)/Total".data)
      = normalizeColumn "Net Income (Loss)/Total".data :=
  claim_C5_idempotent_on_space_only _ (by decide)

/-- C2 counterexample: the claim says validation accepts an entry only when
`name`, `role`, `goal` and `backstory` are non-empty text, but the entry whose
four required fields are all the empty string is accepted, because the
pydantic `str` fields carry no minimum-length constraint. -/
theorem claim_C2_counterexample :
    validateAgentConfig emptyFieldsEntry =
      .ok { name := "", role := "", goal := "", backstory := "", tools := [],
            allow_delegation := false, verbose := true } := rfl

/-- C2 amended: validation accepts an agent entry when `name`, `role`, `goal`
and `backstory` are present as text (empty text allowed); an entry missing any
of these required fields fails validation, a configuration containing such an
entry fails validation, and startup is fatal on an invalid configuration. -/
theorem claim_C2_amended :
    (∀ n r g b : String,
       validateAgentConfig (.map [("name", .str n), ("role", .str r), ("goal", .str g),
                                  ("backstory", .str b)]) =
         .ok { name := n, role := r, goal := g, backstory := b, tools := [],
               allow_delegation := false, verbose := true }) ∧
    (∀ entries : List (String × Yaml),
       (yamlLookup entries "name" = none ∨ yamlLookup entries "role" = none ∨
        yamlLookup entries "goal" = none ∨ yamlLookup entries "backstory" = none) →
       isOkE (validateAgentConfig (.map entries)) = false) ∧
    (∀ yentries : List (String × Yaml), ∀ items : List Yaml,
       ∀ entries : List (String × Yaml),
       yamlLookup yentries "agents" = some (.list items) →
       Yaml.map entries ∈ items →
       (yamlLookup entries "name" = none ∨ yamlLookup entries "role" = none ∨
        yamlLookup entries "goal" = none ∨ yamlLookup entries "backstory" = none) →
       isOkE (validateCrewConfig (.map yentries)) = false) ∧
    (∀ env y, env.configFile = some y → isOkE (validateCrewConfig y) = false →
       ∃ e, startup env = .error e) := by
  have part2 : ∀ entries : List (String × Yaml),
      (yamlLookup entries "name" = none ∨ yamlLookup entries "role" = none ∨
       yamlLookup entries "goal" = none ∨ yamlLookup entries "backstory" = none) →
      isOkE (validateAgentConfig (.map entries)) = false := by
    intro entries hmiss
    cases hv : isOkE (validateAgentConfig (.map entries)) with
    | false => rfl
    | true =>
      exfalso
      obtain ⟨f1, f2, f3, f4⟩ := validateAgentConfig_fields hv
      rcases hmiss with hm | hm | hm | hm
      · rw [hm] at f1; simp at f1
      · rw [hm] at f2; simp at f2
      · rw [hm] at f3; simp at f3
      · rw [hm] at f4; simp at f4
  refine ⟨fun n r g b => rfl, part2,
          fun yentries items entries ha hmem hmiss =>
            validateCrewConfig_bad_entry ha hmem (part2 entries hmiss), ?_⟩
  intro env y hcf hbad
  rcases hs : startup env with e | s
  · exact ⟨e, rfl⟩
  · exfalso
    rcases startup_ok_inv hs with ⟨k, csv, y', cfg, c, _, _, _, _, hcf', hv, _, _⟩
    rw [hcf] at hcf'
    obtain rfl := Option.some.inj hcf'
    have hok : isOkE (validateCrewConfig y) = true := by rw [hv]; rfl
    rw [hbad] at hok
    exact Bool.noConfusion hok

/-- C2 witness: empty text is accepted; a concrete entry missing `role` fails;
a configuration containing that entry fails; startup on an invalid
configuration file errors. -/
theorem claim_C2_witness :
    validateAgentConfig (.map [("name", .str "a"), ("role", .str "b"), ("goal", .str "c"),
                               ("backstory", .str "d")]) =
      .ok { name := "a", role := "b", goal := "c", backstory := "d", tools := [],
            allow_delegation := false, verbose := true } ∧
    isOkE (validateAgentConfig (.map [("name", Yaml.str "x")])) = false ∧
    isOkE (validateCrewConfig
      (.map [("agents", Yaml.list [Yaml.map [("name", Yaml.str "x")]])])) = false ∧
    (∃ e, startup env_bad_config = .error e) :=
  ⟨claim_C2_amended.1 "a" "b" "c" "d",
   claim_C2_amended.2.1 [("name", .str "x")] (Or.inr (Or.inl rfl)),
   claim_C2_amended.2.2.1 [("agents", .list [.map [("name", .str "x")]])]
     [.map [("name", .str "x")]] [("name", .str "x")] rfl
     (List.mem_singleton.mpr rfl) (Or.inr (Or.inl rfl)),
   claim_C2_amended.2.2.2 env_bad_config (.str "nope") rfl rfl⟩

/-- C6 counterexample: the claim asserts that crew assembly succeeds for every
configuration with an entry declaring an unknown tool name; it fails when the
three conventionally-required agent names are absent, as in
`cfg_only_bogus`. -/
theorem claim_C6_counterexample :
    assembleCrew cfg_only_bogus = .error (.keyError "sql_dev") := rfl

/-- C6 amended: for a configuration that also contains the three
conventionally-required agent names, an entry declaring tool names absent from
the fixed four-entry mapping does not make assembly raise, and the resolved
tool list of the agent built from that entry is exactly the declared names
that do occur in the mapping (unknown names silently dropped). -/
theorem claim_C6_amended (cfg : CrewConfig) (entry : AgentConfig)
    (_hmem : entry ∈ cfg.agents)
    (h1 : "sql_dev" ∈ cfg.agents.map AgentConfig.name)
    (h2 : "data_analyst" ∈ cfg.agents.map AgentConfig.name)
    (h3 : "report_writer" ∈ cfg.agents.map AgentConfig.name)
    (_hunk : ∃ n ∈ entry.tools, lookupTool n = none) :
    isOkE (assembleCrew cfg) = true ∧
    (buildAgent entry).tools.map toolName
      = entry.tools.filter (fun n => (lookupTool n).isSome) := by
  refine ⟨?_, ?_⟩
  · rcases assembleCrew_of_mem h1 h2 h3 with ⟨a1, a2, a3, hok⟩
    rw [hok]
    rfl
  · simpa [buildAgent] using resolveTools_names entry.tools

/-- C6 witness: the configuration `cfg_unknown_tool`, whose `sql_dev` entry
declares the unknown `bogus_tool` beside the known `execute_sql`. -/
theorem claim_C6_witness :
    isOkE (assembleCrew cfg_unknown_tool) = true ∧
    (buildAgent sql_dev_tools_conf).tools.map toolName
      = sql_dev_tools_conf.tools.filter (fun n => (lookupTool n).isSome) :=
  claim_C6_amended cfg_unknown_tool sql_dev_tools_conf (by decide) (by decide)
    (by decide) (by decide) ⟨"bogus_tool", by decide, rfl⟩

/-- C7: when any of `sql_dev`, `data_analyst`, `report_writer` is absent from
the validated configuration, crew assembly raises a lookup failure
(`KeyError` on one of those names), and startup with such a configuration
errors, so no route is ever served. -/
theorem claim_C7_missing_agent_is_fatal (cfg : CrewConfig)
    (h : "sql_dev" ∉ cfg.agents.map AgentConfig.name ∨
         "data_analyst" ∉ cfg.agents.map AgentConfig.name ∨
         "report_writer" ∉ cfg.agents.map AgentConfig.name) :
    (∃ n, assembleCrew cfg = .error (.keyError n) ∧
       (n = "sql_dev" ∨ n = "data_analyst" ∨ n = "report_writer")) ∧
    (∀ env y, env.configFile = some y → validateCrewConfig y = .ok cfg →
       ∃ e, startup env = .error e) := by
  have herr := assembleCrew_error_of_missing h
  refine ⟨herr, ?_⟩
  intro env y hcf hv
  rcases hs : startup env with e | s
  · exact ⟨e, rfl⟩
  · exfalso
    rcases startup_ok_inv hs with ⟨k, csv, y', cfg', c, _, _, _, _, hcf', hv', ha', _⟩
    rw [hcf] at hcf'
    obtain rfl := Option.some.inj hcf'
    rw [hv] at hv'
    obtain rfl := Except.ok.inj hv'
    rcases herr with ⟨n, hn, _⟩
    rw [hn] at ha'
    exact Except.noConfusion ha'

/-- C7 witness: the configuration with no agents at all. -/
theorem claim_C7_witness :
    (∃ n, assembleCrew cfg_no_agents = .error (.keyError n) ∧
       (n = "sql_dev" ∨ n = "data_analyst" ∨ n = "report_writer")) ∧
    (∀ env y, env.configFile = some y → validateCrewConfig y = .ok cfg_no_agents →
       ∃ e, startup env = .error e) :=
  claim_C7_missing_agent_is_fatal cfg_no_agents (Or.inl (by decide))

/-- C8: every successfully assembled crew consists of exactly the three tasks
extract, analyze, summarize in that order, with the linear context chain
(extract has no context, the context of analyze is exactly the extract task,
the context of summarize is exactly the analyze task), its execution mode is
sequential, and the `/process` handler only ever invokes `kickoff` on the very
crew object it was given at startup (no per-request reconstruction). -/
theorem claim_C8_pipeline_shape (cfg : CrewConfig)
    (hok : isOkE (assembleCrew cfg) = true) :
    (∃ e a w : Task,
       crewTasks (assembleCrew cfg) = [e, a, w] ∧
       e.description = "Extract the data required to answer the question: \x7bquery\x7d." ∧
       a.description = "Analyze the data provided and write a brief analysis for the question: \x7bquery\x7d." ∧
       w.description = dedent "Write an executive summary of the report from the analysis. The report must be less than 50 words and presented in markdown." ∧
       e.context = [] ∧ a.context = [e] ∧ w.context = [a]) ∧
    crewProcess (assembleCrew cfg) = some Process.sequential ∧
    (∀ c, assembleCrew cfg = .ok c → ∀ kickoff req call,
       (process c kickoff req).2 = some call → call.crew = c) := by
  rcases hs : dictGet (buildAgents cfg.agents) "sql_dev" with _ | a1
  · simp [assembleCrew, hs, isOkE] at hok
  rcases hd : dictGet (buildAgents cfg.agents) "data_analyst" with _ | a2
  · simp [assembleCrew, hs, hd, isOkE] at hok
  rcases hw : dictGet (buildAgents cfg.agents) "report_writer" with _ | a3
  · simp [assembleCrew, hs, hd, hw, isOkE] at hok
  have hA : assembleCrew cfg = .ok
      { agents := (buildAgents cfg.agents).map (fun p => p.2)
        tasks := [extractTaskOf a1, analyzeTaskOf a1 a2, reportTaskOf a1 a2 a3]
        process := .sequential
        verbose := true } := by
    simp only [assembleCrew, hs, hd, hw, extractTaskOf, analyzeTaskOf, reportTaskOf]
  refine ⟨⟨extractTaskOf a1, analyzeTaskOf a1 a2, reportTaskOf a1 a2 a3,
           ?_, rfl, rfl, rfl, rfl, rfl, rfl⟩, ?_, ?_⟩
  · rw [hA]
    rfl
  · rw [hA]
    rfl
  · intro c hc kickoff req call h
    exact process_call_crew h

/-- C8 witness: the three-agent configuration `cfg_three`. -/
theorem claim_C8_witness :
    (∃ e a w : Task,
       crewTasks (assembleCrew cfg_three) = [e, a, w] ∧
       e.description = "Extract the data required to answer the question: \x7bquery\x7d." ∧
       a.description = "Analyze the data provided and write a brief analysis for the question: \x7bquery\x7d." ∧
       w.description = dedent "Write an executive summary of the report from the analysis. The report must be less than 50 words and presented in markdown." ∧
       e.context = [] ∧ a.context = [e] ∧ w.context = [a]) ∧
    crewProcess (assembleCrew cfg_three) = some Process.sequential ∧
    (∀ c, assembleCrew cfg_three = .ok c → ∀ kickoff req call,
       (process c kickoff req).2 = some call → call.crew = c) :=
  claim_C8_pipeline_shape cfg_three (by decide)

/-- C9: startup errors out (so the server never binds) whenever the
`GROQ_API_KEY` variable is unset, whenever the CSV file is absent or the
database load fails, and whenever the configuration file is absent or fails
schema validation. -/
theorem claim_C9_startup_failures (env : Env) :
    (env.groq_api_key = none → ∃ e, startup env = .error e) ∧
    (env.csvFile = none ∨ env.dbWriteOk = false → ∃ e, startup env = .error e) ∧
    ((env.configFile = none ∨
      ∃ y, env.configFile = some y ∧ isOkE (validateCrewConfig y) = false) →
     ∃ e, startup env = .error e) := by
  refine ⟨?_, ?_, ?_⟩
  · intro h
    rcases hs : startup env with e | s
    · exact ⟨e, rfl⟩
    · exfalso
      rcases startup_ok_inv hs with ⟨k, _, _, _, _, hk, _⟩
      rw [h] at hk
      exact Option.noConfusion hk
  · intro h
    rcases hs : startup env with e | s
    · exact ⟨e, rfl⟩
    · exfalso
      rcases startup_ok_inv hs with ⟨k, csv, y, cfg, c, _, _, hc, hdb, _⟩
      rcases h with h | h
      · rw [h] at hc
        exact Option.noConfusion hc
      · rw [h] at hdb
        exact Bool.noConfusion hdb
  · intro h
    rcases hs : startup env with e | s
    · exact ⟨e, rfl⟩
    · exfalso
      rcases startup_ok_inv hs with ⟨k, csv, y', cfg, c, _, _, _, _, hcf, hv, _, _⟩
      rcases h with h | ⟨y, hy, hbad⟩
      · rw [h] at hcf
        exact Option.noConfusion hcf
      · rw [hy] at hcf
        obtain rfl := Option.some.inj hcf
        have hok : isOkE (validateCrewConfig y) = true := by rw [hv]; rfl
        rw [hbad] at hok
        exact Bool.noConfusion hok

/-- C9 witness: concrete environments for each fatal case: credential unset,
CSV absent, configuration absent, configuration invalid. -/
theorem claim_C9_witness :
    (∃ e, startup env_no_key = .error e) ∧ (∃ e, startup env_no_csv = .error e) ∧
    (∃ e, startup env_no_config = .error e) ∧ (∃ e, startup env_bad_config = .error e) :=
  ⟨(claim_C9_startup_failures env_no_key).1 rfl,
   (claim_C9_startup_failures env_no_csv).2.1 (Or.inl rfl),
   (claim_C9_startup_failures env_no_config).2.2 (Or.inl rfl),
   (claim_C9_startup_failures env_bad_config).2.2 (Or.inr ⟨.str "nope", rfl, rfl⟩)⟩

end FinanceCrew
